import Mathlib

/-!
Shallow embedding of the e-commerce backend (`src/main.py`) — the Order
Pricing component (`create_order`) and the Catalog Query component
(`list_products`, `get_product`).

Monetary values are modelled as exact rationals (`ℚ`); Python's `round`
(round-half-to-even on the exact value) is modelled by `rhe`/`round2`.
The document store (`database.py`), the pydantic schemas (`schemas.py`)
and the BSON `ObjectId` codec are not under `src/`; where their behaviour
decides a property they are modelled from the spec, each such definition
carrying a `Modelled from the spec:` doc comment.
-/

namespace ECom

/-- Round-half-to-even of a rational to the nearest integer: the behaviour
of Python's builtin `round` on an exactly represented value.  At a tie
(`Int.fract x = 1/2`) the even neighbour is chosen, which `2 * ⌊x/2 + 1/2⌋`
computes; otherwise it is ordinary rounding to the nearest integer. -/
def rhe (x : ℚ) : ℤ :=
  if Int.fract x = 1 / 2 then 2 * ⌊x / 2 + 1 / 2⌋ else ⌊x + 1 / 2⌋

/-- Python `round(x, 2)`: round to two decimal places, ties to even. -/
def round2 (x : ℚ) : ℚ := (rhe (100 * x) : ℚ) / 100

/-- A raw line item of the order payload: `payload.items` is a list of
untyped dicts; each relevant key is either absent (`none`) or present with
a value of the type the handler coerces it to (`float` → `ℚ`, `int` → `ℤ`). -/
structure RawLineItem where
  product_id : Option String
  title : Option String
  price : Option ℚ
  quantity : Option ℤ
  image : Option String
deriving Repr, DecidableEq

/-- Request body `CreateOrderRequest` (main.py lines 167-171). -/
structure CreateOrderRequest where
  items : List RawLineItem
  customer_name : String
  customer_email : String
  customer_address : String
deriving Repr, DecidableEq

/-- A persisted order line item (the dict built at main.py lines 186-192). -/
structure OrderLineItem where
  product_id : String
  title : String
  price : ℚ
  quantity : ℤ
  image : Option String
deriving Repr, DecidableEq

/-- Coercion of one raw item (main.py lines 186-192):
`str(i.get("product_id", ""))`, `str(i.get("title", ""))`,
`float(i.get("price", 0))`, `int(i.get("quantity", 1))`, `i.get("image")`. -/
def coerceItem (i : RawLineItem) : OrderLineItem :=
  { product_id := i.product_id.getD ""
    title := i.title.getD ""
    price := i.price.getD 0
    quantity := i.quantity.getD 1
    image := i.image }

/-- Subtotal computation, main.py line 179:
`subtotal = sum(float(i.get("price", 0)) * int(i.get("quantity", 1)) for i in payload.items)`. -/
def subtotalOf (items : List RawLineItem) : ℚ :=
  (items.map (fun i => i.price.getD 0 * (i.quantity.getD 1 : ℚ))).sum

/-- Shipping rule, main.py line 180: `shipping = 0 if subtotal >= 50 else 6.99`. -/
def shippingOf (subtotal : ℚ) : ℚ :=
  if 50 ≤ subtotal then 0 else 699 / 100

/-- Tax rule, main.py line 181: `taxes = round(subtotal * 0.07, 2)`. -/
def taxesOf (subtotal : ℚ) : ℚ := round2 (subtotal * (7 / 100))

/-- Total, main.py line 182: `total = round(subtotal + shipping + taxes, 2)`. -/
def totalOf (subtotal : ℚ) : ℚ :=
  round2 (subtotal + shippingOf subtotal + taxesOf subtotal)

/-- The persisted `Order` document (main.py lines 184-202; field shape from
the spec's data model, `schemas.py` being outside `src/`). -/
structure Order where
  items : List OrderLineItem
  subtotal : ℚ
  shipping : ℚ
  taxes : ℚ
  total : ℚ
  customer_name : String
  customer_email : String
  customer_address : String
deriving Repr, DecidableEq

/-- Modelled from the spec: the pydantic validation of `schemas.Order`
(`schemas.py` is not under `src/`).  The spec's data model requires each
OrderLineItem to have `price` (decimal ≥ 0) and `quantity` (integer ≥ 1);
constructing an `Order` with an item outside these bounds fails. -/
def validItem (li : OrderLineItem) : Bool :=
  decide (0 ≤ li.price) && decide (1 ≤ li.quantity)

/-- A stored product document: `_id` is the store-assigned identifier
(opaque; modelled as `ℕ`), every other field may be absent. -/
structure ProductDoc where
  oid : ℕ
  title : Option String
  description : Option String
  price : Option ℚ
  category : Option String
  image : Option String
  rating : Option ℚ
  in_stock : Option Bool
deriving Repr, DecidableEq

/-- The document store: the `product` and `order` collections.  `db = none`
models an unconfigured database (`db is None`). -/
structure Store where
  products : List ProductDoc
  orders : List Order
deriving Repr, DecidableEq

/-- The error outcomes of the HTTP handlers. -/
inductive ApiError where
  /-- Raised as `HTTPException(500, "Database not configured")` -/
  | storeUnavailable
  /-- pydantic `ValidationError` while constructing the `Order` document -/
  | validationFailed
  /-- Raised as `HTTPException(400, "Invalid product id")` -/
  | invalidIdentifier
  /-- Raised as `HTTPException(404, "Product not found")` -/
  | notFound
deriving Repr, DecidableEq

/-- The response body of `POST /api/orders`: `{"order_id": ..., "total": total}`. -/
structure OrderResponse where
  order_id : ℕ
  total : ℚ
deriving Repr, DecidableEq

/-- The order document built at main.py lines 184-202: coerced items, the
monetary fields (`subtotal` and `shipping` rounded at storage time, lines
195-196; `taxes` already rounded at line 181; `total` from line 182) and
the customer strings. -/
def orderDocOf (payload : CreateOrderRequest) : Order :=
  { items := payload.items.map coerceItem
    subtotal := round2 (subtotalOf payload.items)
    shipping := round2 (shippingOf (subtotalOf payload.items))
    taxes := taxesOf (subtotalOf payload.items)
    total := totalOf (subtotalOf payload.items)
    customer_name := payload.customer_name
    customer_email := payload.customer_email
    customer_address := payload.customer_address }

/-- Handler `create_order` (main.py lines 173-205).  On success it returns the
store with the new order document appended (`create_document("order", ...)`,
modelled from the spec's `insertOne(collection, document) → id`, with the
assigned identifier modelled as the collection's size) together with the
response body `{"order_id": ..., "total": total}`. -/
def create_order (db : Option Store) (payload : CreateOrderRequest) :
    Except ApiError (Store × OrderResponse) :=
  match db with
  | none => .error .storeUnavailable
  | some s =>
    if (payload.items.map coerceItem).all validItem then
      .ok ({ s with orders := s.orders ++ [orderDocOf payload] },
           { order_id := s.orders.length, total := totalOf (subtotalOf payload.items) })
    else
      .error .validationFailed

/-- A character-list version of "starts with": `startsWith hay pat` is
true when `pat` is an initial segment of `hay`. -/
def startsWith : List Char → List Char → Bool
  | _, [] => true
  | [], _ :: _ => false
  | c :: cs, p :: ps => c == p && startsWith cs ps

/-- Containment check `hasSub hay pat`: `pat` occurs contiguously somewhere in `hay`. -/
def hasSub : List Char → List Char → Bool
  | [], pat => pat.isEmpty
  | c :: cs, pat => startsWith (c :: cs) pat || hasSub cs pat

/-- Modelled from the spec: the `$regex`/`$options:"i"` condition used by
`list_products` (evaluated by MongoDB via `get_documents`, `database.py`
not being under `src/`), which the spec reads as "case-insensitively
contains" for the plain free-text patterns at hand. -/
def icontains (hay pat : String) : Bool :=
  hasSub (hay.toList.map Char.toLower) (pat.toList.map Char.toLower)

/-- The Mongo filter dict built by `list_products` (main.py lines 74-82):
an optional exact-match `category` entry and an optional `$or` entry keyed
by the free-text pattern. -/
structure FilterDict where
  category : Option String
  textOr : Option String
deriving Repr, DecidableEq

/-- Filter construction (main.py lines 74-82): `if category:` and `if q:`
are Python truthiness tests, so `None` and the empty string both leave the
corresponding entry out of the dict. -/
def buildFilter (category q : Option String) : FilterDict :=
  { category := match category with
      | some c => if c = "" then none else some c
      | none => none
    textOr := match q with
      | some s => if s = "" then none else some s
      | none => none }

/-- Modelled from the spec: evaluation of the filter dict by the document
store (`get_documents` in `database.py`, not under `src/`): exact match on
the stored `category` field, and for the `$or` entry a case-insensitive
contains test on `title`, `description` or `category`; a document lacking a
field does not match that field's condition. -/
def evalFilter (f : FilterDict) (d : ProductDoc) : Bool :=
  (match f.category with
    | none => true
    | some c => d.category == some c) &&
  (match f.textOr with
    | none => true
    | some s =>
      (match d.title with | some t => icontains t s | none => false) ||
      (match d.description with | some t => icontains t s | none => false) ||
      (match d.category with | some t => icontains t s | none => false))

/-- Modelled from the spec: `get_documents(collection, filter_dict, limit)`
(`database.py`, not under `src/`) returns the documents matching the filter,
capped at `limit`, in the store's natural order. -/
def get_documents (docs : List ProductDoc) (f : FilterDict) (limit : ℕ) :
    List ProductDoc :=
  (docs.filter (evalFilter f)).take limit

/-- The public product view built by `list_products` (main.py lines 85-96). -/
structure ProductView where
  id : String
  title : Option String
  description : Option String
  price : ℚ
  category : String
  image : Option String
  rating : ℚ
  in_stock : Bool
deriving Repr, DecidableEq

/-- Field projection of one stored document (main.py lines 86-95). -/
def toView (d : ProductDoc) : ProductView :=
  { id := toString d.oid
    title := d.title
    description := d.description
    price := d.price.getD 0
    category := d.category.getD "Other"
    image := d.image
    rating := d.rating.getD (9 / 2)
    in_stock := d.in_stock.getD true }

/-- Handler `list_products` (main.py lines 70-97). -/
def list_products (db : Option Store) (category q : Option String)
    (limit : ℕ) : Except ApiError (List ProductView) :=
  match db with
  | none => .error .storeUnavailable
  | some s => .ok ((get_documents s.products (buildFilter category q) limit).map toView)

/-- The record returned by `get_product`: the full stored document with the
identifier field popped, renamed to `id` and stringified (main.py line 111). -/
structure ProductRecord where
  id : String
  title : Option String
  description : Option String
  price : Option ℚ
  category : Option String
  image : Option String
  rating : Option ℚ
  in_stock : Option Bool
deriving Repr, DecidableEq

/-- Identifier rename, main.py line 111: `doc["id"] = str(doc.pop("_id"))`. -/
def renameId (d : ProductDoc) : ProductRecord :=
  { id := toString d.oid
    title := d.title
    description := d.description
    price := d.price
    category := d.category
    image := d.image
    rating := d.rating
    in_stock := d.in_stock }

/-- Handler `get_product` (main.py lines 99-112), parametrised by the BSON
`ObjectId` codec (an external library; the spec treats the identifier
format as opaque): `parse` returns `none` exactly when `ObjectId(product_id)`
raises.  `find_one` (modelled from the spec) returns the first document
whose `_id` equals the parsed identifier. -/
def get_product (parse : String → Option ℕ) (db : Option Store)
    (product_id : String) : Except ApiError ProductRecord :=
  match db with
  | none => .error .storeUnavailable
  | some s =>
    match parse product_id with
    | none => .error .invalidIdentifier
    | some oid =>
      match s.products.find? (fun d => d.oid == oid) with
      | none => .error .notFound
      | some d => .ok (renameId d)

/-! ### Helper lemmas about the rounding function -/

lemma rhe_intCast (n : ℤ) : rhe (n : ℚ) = n := by
  rw [rhe, if_neg]
  · rw [show ((n : ℚ) + 1 / 2) = 1 / 2 + (n : ℚ) by ring, Int.floor_add_int]
    norm_num
  · rw [Int.fract_intCast]
    norm_num

lemma round2_cast_div (k : ℤ) : round2 ((k : ℚ) / 100) = (k : ℚ) / 100 := by
  rw [round2, show (100 : ℚ) * ((k : ℚ) / 100) = (k : ℚ) by ring, rhe_intCast]

/-- Triangle inequality for a difference. -/
lemma abs_sub_le_sum (u v : ℚ) : |u - v| ≤ |u| + |v| := by
  calc |u - v| = |u + -v| := by rw [sub_eq_add_neg]
    _ ≤ |u| + |-v| := abs_add u (-v)
    _ = |u| + |v| := by rw [abs_neg]

/-- Half-even rounding lands within a half of its argument. -/
lemma rhe_near (x : ℚ) : |x - (rhe x : ℚ)| ≤ 1 / 2 := by
  rw [rhe]
  split_ifs with h
  · have hx : x = (⌊x⌋ : ℚ) + 1 / 2 := by
      rw [← h, Int.floor_add_fract]
    obtain ⟨r, hr⟩ | ⟨r, hr⟩ := Int.even_or_odd ⌊x⌋
    · have h1 : x / 2 + 1 / 2 = 3 / 4 + (r : ℚ) := by
        rw [hx, hr]; push_cast; ring
      rw [h1, Int.floor_add_int, show ⌊(3 / 4 : ℚ)⌋ = 0 by norm_num [Rat.floor_def]]
      have h2 : x - ((2 * (0 + r) : ℤ) : ℚ) = 1 / 2 := by
        rw [hx, hr]; push_cast; ring
      rw [h2]; rw [abs_le]; norm_num
    · have h1 : x / 2 + 1 / 2 = 5 / 4 + (r : ℚ) := by
        rw [hx, hr]; push_cast; ring
      rw [h1, Int.floor_add_int, show ⌊(5 / 4 : ℚ)⌋ = 1 by norm_num [Rat.floor_def]]
      have h2 : x - ((2 * (1 + r) : ℤ) : ℚ) = -(1 / 2) := by
        rw [hx, hr]; push_cast; ring
      rw [h2]; rw [abs_le]; norm_num
  · rw [← round_eq]
    exact abs_sub_round x

/-- Rounding to two decimals lands within half a cent. -/
lemma abs_sub_round2 (x : ℚ) : |x - round2 x| ≤ 1 / 200 := by
  have h := rhe_near (100 * x)
  rw [round2, show x - (rhe (100 * x) : ℚ) / 100
      = (100 * x - (rhe (100 * x) : ℚ)) / 100 by ring, abs_div,
    show |(100 : ℚ)| = 100 by norm_num]
  linarith

/-- Rounding a sum at two decimals, when one addend is an exact number of
cents, agrees with rounding the other addend alone up to one cent. -/
lemma round2_sub_bound (x : ℚ) (k : ℤ) :
    |round2 (x + (k : ℚ) / 100) - (round2 x + (k : ℚ) / 100)| ≤ 1 / 100 := by
  have h1 := rhe_near (100 * x + (k : ℚ))
  have h2 := rhe_near (100 * x)
  have htri := abs_sub_le_sum (100 * x - (rhe (100 * x) : ℚ))
    (100 * x + (k : ℚ) - (rhe (100 * x + (k : ℚ)) : ℚ))
  simp only [round2]
  rw [show (100 : ℚ) * (x + (k : ℚ) / 100) = 100 * x + (k : ℚ) by ring,
    show ((rhe (100 * x + (k : ℚ)) : ℚ)) / 100 - ((rhe (100 * x) : ℚ) / 100 + (k : ℚ) / 100)
        = ((100 * x - (rhe (100 * x) : ℚ))
            - (100 * x + (k : ℚ) - (rhe (100 * x + (k : ℚ)) : ℚ))) / 100 by ring,
    abs_div, show |(100 : ℚ)| = 100 by norm_num]
  linarith

/-- Shipping is an exact number of cents. -/
lemma shippingOf_cents (s : ℚ) :
    ∃ k : ℤ, shippingOf s = (k : ℚ) / 100 := by
  rw [shippingOf]
  split_ifs
  · exact ⟨0, by norm_num⟩
  · exact ⟨699, by norm_num⟩

/-- Taxes are an exact number of cents. -/
lemma taxesOf_cents (s : ℚ) : ∃ k : ℤ, taxesOf s = (k : ℚ) / 100 :=
  ⟨rhe (100 * (s * (7 / 100))), rfl⟩

/-- Success analysis of `create_order`: a successful call came from a
configured store, validated all coerced items, left the product collection
alone, appended exactly the built order document and answered with its
identifier and total. -/
lemma create_order_ok (db : Option Store) (p : CreateOrderRequest)
    (s' : Store) (r : OrderResponse)
    (hok : create_order db p = .ok (s', r)) :
    ∃ s, db = some s ∧
      (p.items.map coerceItem).all validItem = true ∧
      s'.products = s.products ∧
      s'.orders = s.orders ++ [orderDocOf p] ∧
      r = ⟨s.orders.length, totalOf (subtotalOf p.items)⟩ := by
  match db with
  | none => simp [create_order] at hok
  | some s =>
    refine ⟨s, rfl, ?_⟩
    rw [create_order] at hok
    by_cases hv : (p.items.map coerceItem).all validItem
    · rw [if_pos hv] at hok
      simp only [Except.ok.injEq, Prod.mk.injEq] at hok
      obtain ⟨h1, h2⟩ := hok
      subst h1
      subst h2
      exact ⟨hv, rfl, rfl, rfl⟩
    · rw [if_neg hv] at hok
      exact absurd hok (by simp)

end ECom

open ECom

/-! ### Claim theorems -/

/-- C2: for every order submission, the computed shipping equals 0 if and
only if the subtotal (sum of price·quantity over the submitted items) is at
least 50, and equals exactly 6.99 otherwise. -/
theorem C2_shipping_threshold (items : List RawLineItem) :
    (shippingOf (subtotalOf items) = 0 ↔ 50 ≤ subtotalOf items) ∧
    (subtotalOf items < 50 → shippingOf (subtotalOf items) = 699 / 100) := by
  constructor
  · rw [shippingOf]
    split_ifs with h
    · simp [h]
    · constructor
      · intro h0
        norm_num at h0
      · intro h50
        exact absurd h50 h
  · intro hlt
    rw [shippingOf, if_neg (not_le.mpr hlt)]

/-- Witness for C2 at the spec's two worked examples: one item of price 10
and quantity 1 ships at 6.99, one item of price 30 and quantity 2 ships
free. -/
theorem C2_shipping_threshold_witness :
    shippingOf (subtotalOf [⟨none, none, some 10, some 1, none⟩]) = 699 / 100 ∧
    shippingOf (subtotalOf [⟨none, none, some 30, some 2, none⟩]) = 0 := by
  constructor
  · exact (C2_shipping_threshold [⟨none, none, some 10, some 1, none⟩]).2
      (by norm_num [subtotalOf])
  · exact (C2_shipping_threshold [⟨none, none, some 30, some 2, none⟩]).1.mpr
      (by norm_num [subtotalOf])

/-- C3: for every order submission with subtotal ≥ 0, the computed taxes
equal `round(subtotal * 0.07, 2)`: they are an exact number of cents within
half a cent of 7% of the subtotal. -/
theorem C3_taxes_rate (items : List RawLineItem) (h : 0 ≤ subtotalOf items) :
    taxesOf (subtotalOf items) = round2 (subtotalOf items * (7 / 100)) ∧
    ∃ k : ℤ, taxesOf (subtotalOf items) = (k : ℚ) / 100 ∧
      |subtotalOf items * (7 / 100) - (k : ℚ) / 100| ≤ 1 / 200 := by
  refine ⟨rfl, rhe (100 * (subtotalOf items * (7 / 100))), rfl, ?_⟩
  simpa [round2] using abs_sub_round2 (subtotalOf items * (7 / 100))

/-- Witness for C3 at one item of price 10, quantity 1. -/
theorem C3_taxes_rate_witness :
    0 ≤ subtotalOf [⟨none, none, some 10, some 1, none⟩] ∧
    (taxesOf (subtotalOf [⟨none, none, some 10, some 1, none⟩]) =
        round2 (subtotalOf [⟨none, none, some 10, some 1, none⟩] * (7 / 100)) ∧
      ∃ k : ℤ, taxesOf (subtotalOf [⟨none, none, some 10, some 1, none⟩]) = (k : ℚ) / 100 ∧
        |subtotalOf [⟨none, none, some 10, some 1, none⟩] * (7 / 100) - (k : ℚ) / 100| ≤ 1 / 200) :=
  ⟨by norm_num [subtotalOf],
    C3_taxes_rate [⟨none, none, some 10, some 1, none⟩] (by norm_num [subtotalOf])⟩

/-- C9: passing the empty string for `category` (or for `q`) builds the
same filter, and hence the same product listing, as omitting the parameter:
Python's `if category:` / `if q:` truthiness tests skip empty strings. -/
theorem C9_empty_is_absent (db : Option Store) (cat q : Option String) (limit : ℕ) :
    list_products db (some "") q limit = list_products db none q limit ∧
    list_products db cat (some "") limit = list_products db cat none limit := by
  have h1 : buildFilter (some "") q = buildFilter none q := by
    simp [buildFilter]
  have h2 : buildFilter cat (some "") = buildFilter cat none := by
    simp [buildFilter]
  refine ⟨?_, ?_⟩ <;> cases db <;> simp [list_products, h1, h2]

/-- The spec's free-text condition, written from its words: the product's
title, description or category case-insensitively contains the pattern
(logical OR over the three fields; a missing field contains nothing). -/
def specTextMatches (q : String) (d : ProductDoc) : Bool :=
  (match d.title with | some t => icontains t q | none => false) ||
  (match d.description with | some t => icontains t q | none => false) ||
  (match d.category with | some t => icontains t q | none => false)

/-- C5: with a free-text parameter `q` the listing selects exactly the
products whose title, description or category case-insensitively contains
`q` (OR over the three fields), and with both a category and `q` it selects
exactly the products matching the exact-category condition AND the
free-text condition. -/
theorem C5_text_and_category_filter (s : Store) (c q : String)
    (hc : c ≠ "") (hq : q ≠ "") (limit : ℕ) (hlim : s.products.length ≤ limit) :
    list_products (some s) none (some q) limit =
      .ok ((s.products.filter (specTextMatches q)).map toView) ∧
    list_products (some s) (some c) (some q) limit =
      .ok ((s.products.filter
        (fun d => (d.category == some c) && specTextMatches q d)).map toView) := by
  have htake : ∀ f : FilterDict,
      (s.products.filter (evalFilter f)).take limit = s.products.filter (evalFilter f) :=
    fun f => List.take_of_length_le (le_trans (List.length_filter_le _ _) hlim)
  constructor
  · rw [list_products, get_documents, htake]
    have hev : ∀ d ∈ s.products,
        evalFilter (buildFilter none (some q)) d = specTextMatches q d := by
      intro d _
      simp only [buildFilter, if_neg hq, evalFilter, specTextMatches, Bool.true_and]
    rw [List.filter_congr hev]
  · rw [list_products, get_documents, htake]
    have hev : ∀ d ∈ s.products,
        evalFilter (buildFilter (some c) (some q)) d =
          ((d.category == some c) && specTextMatches q d) := by
      intro d _
      simp only [buildFilter, if_neg hq, if_neg hc, evalFilter, specTextMatches]
    rw [List.filter_congr hev]

/-- Witness for C5 on a two-product catalog, category "Electronics" and
free text "chair". -/
theorem C5_text_and_category_filter_witness :
    list_products (some ⟨[⟨1, some "Wireless Headphones", some "Noise cancelling",
        none, some "Electronics", none, none, none⟩,
      ⟨2, some "Ergonomic Office Chair", some "Lumbar support",
        none, some "Home", none, none, none⟩], []⟩) none (some "chair") 50 =
      .ok (([⟨1, some "Wireless Headphones", some "Noise cancelling",
        none, some "Electronics", none, none, none⟩,
      ⟨2, some "Ergonomic Office Chair", some "Lumbar support",
        none, some "Home", none, none, none⟩].filter
          (specTextMatches "chair")).map toView) ∧
    list_products (some ⟨[⟨1, some "Wireless Headphones", some "Noise cancelling",
        none, some "Electronics", none, none, none⟩,
      ⟨2, some "Ergonomic Office Chair", some "Lumbar support",
        none, some "Home", none, none, none⟩], []⟩) (some "Electronics") (some "chair") 50 =
      .ok (([⟨1, some "Wireless Headphones", some "Noise cancelling",
        none, some "Electronics", none, none, none⟩,
      ⟨2, some "Ergonomic Office Chair", some "Lumbar support",
        none, some "Home", none, none, none⟩].filter
          (fun d => (d.category == some "Electronics") &&
            specTextMatches "chair" d)).map toView) :=
  C5_text_and_category_filter
    ⟨[⟨1, some "Wireless Headphones", some "Noise cancelling",
        none, some "Electronics", none, none, none⟩,
      ⟨2, some "Ergonomic Office Chair", some "Lumbar support",
        none, some "Home", none, none, none⟩], []⟩
    "Electronics" "chair" (by decide) (by decide) 50 (by decide)

/-- C6: with a configured store, `get_product` fails with
`InvalidIdentifier` exactly when the id does not parse, fails with
`NotFound` exactly when it parses but no stored product carries that
identifier, and otherwise returns the full stored record with the
identifier field renamed to `id` and stringified. -/
theorem C6_get_product_outcomes (parse : String → Option ℕ) (s : Store)
    (product_id : String) :
    (get_product parse (some s) product_id = .error .invalidIdentifier ↔
      parse product_id = none) ∧
    (get_product parse (some s) product_id = .error .notFound ↔
      ∃ oid, parse product_id = some oid ∧
        s.products.find? (fun d => d.oid == oid) = none) ∧
    (∀ oid d, parse product_id = some oid →
      s.products.find? (fun d => d.oid == oid) = some d →
      get_product parse (some s) product_id = .ok (renameId d)) := by
  cases hp : parse product_id with
  | none => simp [get_product, hp]
  | some oid =>
    cases hf : s.products.find? (fun d => d.oid == oid) with
    | none =>
      have hg : get_product parse (some s) product_id = .error .notFound := by
        simp [get_product, hp, hf]
      refine ⟨?_, ?_, ?_⟩
      · rw [hg]
        simp
      · rw [hg]
        exact ⟨fun _ => ⟨oid, rfl, hf⟩, fun _ => rfl⟩
      · intro oid' d hp' hf'
        rw [Option.some.injEq] at hp'
        subst hp'
        rw [hf] at hf'
        exact absurd hf' (by simp)
    | some d =>
      have hg : get_product parse (some s) product_id = .ok (renameId d) := by
        simp [get_product, hp, hf]
      refine ⟨?_, ?_, ?_⟩
      · rw [hg]
        simp
      · rw [hg]
        constructor
        · intro hcon
          exact absurd hcon (by simp)
        · rintro ⟨oid', hp', hf'⟩
          rw [Option.some.injEq] at hp'
          subst hp'
          rw [hf] at hf'
          exact absurd hf' (by simp)
      · intro oid' d' hp' hf'
        rw [Option.some.injEq] at hp'
        subst hp'
        rw [hf, Option.some.injEq] at hf'
        subst hf'
        exact hg

/-- Witness for C6: a toy identifier codec and a one-product store exercise
the three outcomes at ids "bad", "7" and "5". -/
theorem C6_get_product_outcomes_witness :
    (get_product (fun t => if t = "5" then some 5 else if t = "7" then some 7 else none)
        (some ⟨[⟨5, some "Bottle", none, none, some "Outdoors", none, none, none⟩], []⟩)
        "bad" = .error .invalidIdentifier) ∧
    (get_product (fun t => if t = "5" then some 5 else if t = "7" then some 7 else none)
        (some ⟨[⟨5, some "Bottle", none, none, some "Outdoors", none, none, none⟩], []⟩)
        "7" = .error .notFound) ∧
    (get_product (fun t => if t = "5" then some 5 else if t = "7" then some 7 else none)
        (some ⟨[⟨5, some "Bottle", none, none, some "Outdoors", none, none, none⟩], []⟩)
        "5" = .ok (renameId ⟨5, some "Bottle", none, none, some "Outdoors", none, none, none⟩)) :=
  ⟨(C6_get_product_outcomes _ _ "bad").1.mpr (by decide),
   (C6_get_product_outcomes _ _ "7").2.1.mpr ⟨7, by decide, by decide⟩,
   (C6_get_product_outcomes _ _ "5").2.2 5
     ⟨5, some "Bottle", none, none, some "Outdoors", none, none, none⟩
     (by decide) (by decide)⟩

/-- C7: each persisted line item coerces a missing price to 0, a missing
quantity to 1, a missing product_id or title to the empty string, and the
order computation never consults the product collection, so product_id is
not validated against existing products. -/
theorem C7_item_coercion_no_validation (i : RawLineItem) (s₁ s₂ : Store)
    (p : CreateOrderRequest) (h : s₁.orders = s₂.orders) :
    (coerceItem i).price = i.price.getD 0 ∧
    (coerceItem i).quantity = i.quantity.getD 1 ∧
    (coerceItem i).product_id = i.product_id.getD "" ∧
    (coerceItem i).title = i.title.getD "" ∧
    (create_order (some s₁) p).map (fun r => (r.1.orders, r.2)) =
      (create_order (some s₂) p).map (fun r => (r.1.orders, r.2)) := by
  refine ⟨rfl, rfl, rfl, rfl, ?_⟩
  rw [create_order, create_order]
  by_cases hv : (p.items.map coerceItem).all validItem
  · rw [if_pos hv, if_pos hv]
    simp [Except.map, h]
  · rw [if_neg hv, if_neg hv]

/-- Witness for C7: an all-defaults raw item, and two stores that differ
only in their product collections. -/
theorem C7_item_coercion_no_validation_witness :
    (coerceItem ⟨none, none, none, none, none⟩).price = 0 ∧
    (coerceItem ⟨none, none, none, none, none⟩).quantity = 1 ∧
    (coerceItem ⟨none, none, none, none, none⟩).product_id = "" ∧
    (coerceItem ⟨none, none, none, none, none⟩).title = "" ∧
    (create_order
        (some ⟨[⟨1, some "Bottle", none, none, none, none, none, none⟩], []⟩)
        ⟨[⟨some "ghost-product", none, none, none, none⟩], "n", "e", "a"⟩).map
        (fun r => (r.1.orders, r.2)) =
      (create_order (some ⟨[], []⟩)
        ⟨[⟨some "ghost-product", none, none, none, none⟩], "n", "e", "a"⟩).map
        (fun r => (r.1.orders, r.2)) :=
  C7_item_coercion_no_validation ⟨none, none, none, none, none⟩
    ⟨[⟨1, some "Bottle", none, none, none, none, none, none⟩], []⟩ ⟨[], []⟩
    ⟨[⟨some "ghost-product", none, none, none, none⟩], "n", "e", "a"⟩ rfl

/-- C8: every line item of an order persisted by a successful
`create_order` satisfies the data-model bounds price ≥ 0 and quantity ≥ 1
(enforced by the order schema's validation before anything is stored). -/
theorem C8_line_item_bounds (db : Option Store) (p : CreateOrderRequest)
    (s' : Store) (r : OrderResponse)
    (hok : create_order db p = .ok (s', r)) :
    ∃ s doc, db = some s ∧ s'.orders = s.orders ++ [doc] ∧
      ∀ li ∈ doc.items, 0 ≤ li.price ∧ 1 ≤ li.quantity := by
  obtain ⟨s, hdb, hv, _, ho, _⟩ := create_order_ok db p s' r hok
  refine ⟨s, orderDocOf p, hdb, ho, ?_⟩
  intro li hli
  have hvli : validItem li = true := List.all_eq_true.mp hv li hli
  rw [validItem, Bool.and_eq_true, decide_eq_true_eq, decide_eq_true_eq] at hvli
  exact hvli

/-- Witness for C8: a successful order of one item of price 10, quantity 1
against an empty store. -/
theorem C8_line_item_bounds_witness :
    ∃ s doc, (some (⟨[], []⟩ : Store)) = some s ∧
      (⟨[], [orderDocOf ⟨[⟨none, none, some 10, some 1, none⟩], "n", "e", "a"⟩]⟩ :
        Store).orders = s.orders ++ [doc] ∧
      ∀ li ∈ doc.items, 0 ≤ li.price ∧ 1 ≤ li.quantity :=
  C8_line_item_bounds (some ⟨[], []⟩)
    ⟨[⟨none, none, some 10, some 1, none⟩], "n", "e", "a"⟩
    ⟨[], [orderDocOf ⟨[⟨none, none, some 10, some 1, none⟩], "n", "e", "a"⟩]⟩
    ⟨0, totalOf (subtotalOf [⟨none, none, some 10, some 1, none⟩])⟩
    (by
      have hone : validItem (coerceItem ⟨none, none, some 10, some 1, none⟩) = true := by
        norm_num [coerceItem, validItem]
      simp [create_order, hone])

/-- C10: for every successful order creation, the total in the response
body is exactly the total of the persisted order document. -/
theorem C10_response_matches_stored_total (db : Option Store)
    (p : CreateOrderRequest) (s' : Store) (r : OrderResponse)
    (hok : create_order db p = .ok (s', r)) :
    ∃ s doc, db = some s ∧ s'.orders = s.orders ++ [doc] ∧
      doc.total = r.total := by
  obtain ⟨s, hdb, _, _, ho, hr⟩ := create_order_ok db p s' r hok
  exact ⟨s, orderDocOf p, hdb, ho, by subst hr; rfl⟩

/-- Witness for C10: a successful order of one item of price 30,
quantity 2. -/
theorem C10_response_matches_stored_total_witness :
    ∃ s doc, (some (⟨[], []⟩ : Store)) = some s ∧
      (⟨[], [orderDocOf ⟨[⟨none, none, some 30, some 2, none⟩], "n", "e", "a"⟩]⟩ :
        Store).orders = s.orders ++ [doc] ∧
      doc.total = (⟨0, totalOf (subtotalOf [⟨none, none, some 30, some 2, none⟩])⟩ :
        OrderResponse).total :=
  C10_response_matches_stored_total (some ⟨[], []⟩)
    ⟨[⟨none, none, some 30, some 2, none⟩], "n", "e", "a"⟩
    ⟨[], [orderDocOf ⟨[⟨none, none, some 30, some 2, none⟩], "n", "e", "a"⟩]⟩
    ⟨0, totalOf (subtotalOf [⟨none, none, some 30, some 2, none⟩])⟩
    (by
      have hone : validItem (coerceItem ⟨none, none, some 30, some 2, none⟩) = true := by
        norm_num [coerceItem, validItem]
      simp [create_order, hone])

/-- Items of the C1 counterexample: one line item of price 0.045 (= 9/200),
quantity 1. -/
def c1Items : List RawLineItem := [⟨none, none, some (9 / 200), some 1, none⟩]

/-- Payload of the C1 counterexample. -/
def c1Payload : CreateOrderRequest := ⟨c1Items, "n", "e", "a"⟩

/-- C1 as stated is false: the order with a single item of price 0.045 and
quantity 1 is accepted and persisted with stored subtotal 0.04, shipping
6.99, taxes 0.00 — but stored total 7.04, because line 182 rounds the raw
sum 7.035 up to 7.04 while line 195 rounds the subtotal 0.045 down to 0.04
separately.  CPython produces these same stored values (the double nearest
0.045 lies below it, so `round(0.045, 2) = 0.04`, and the summed double
lies above 7.035, so `round(..., 2) = 7.04`), so the violation
7.04 ≠ 0.04 + 6.99 + 0.00 is the program's, not the model's.  Hence
total ≠ subtotal + shipping + taxes over the stored fields, i.e.
total ≠ round(subtotal,2) + shipping + taxes. -/
theorem C1_counterexample :
    create_order (some ⟨[], []⟩) c1Payload =
      .ok (⟨[], [orderDocOf c1Payload]⟩, ⟨0, totalOf (subtotalOf c1Items)⟩) ∧
    (orderDocOf c1Payload).total ≠
      (orderDocOf c1Payload).subtotal + (orderDocOf c1Payload).shipping +
        (orderDocOf c1Payload).taxes := by
  constructor
  · have hone : validItem (coerceItem ⟨none, none, some (9 / 200), some 1, none⟩) = true := by
      norm_num [coerceItem, validItem]
    simp [create_order, c1Payload, c1Items, hone]
  · show totalOf (subtotalOf c1Items) ≠
      round2 (subtotalOf c1Items) + round2 (shippingOf (subtotalOf c1Items)) +
        taxesOf (subtotalOf c1Items)
    have hs : subtotalOf c1Items = 9 / 200 := by
      norm_num [c1Items, subtotalOf]
    rw [hs]
    norm_num [totalOf, shippingOf, taxesOf, round2, rhe, Int.fract, Rat.floor_def]

/-- C1 (amended): every persisted order carries
total = round(subtotal + shipping + taxes, 2) computed from the raw
subtotal (line 182); because the subtotal is rounded separately for storage
(line 195), the stored fields satisfy the invariant only up to one cent:
|total − (subtotal + shipping + taxes)| ≤ 0.01. -/
theorem C1_total_invariant_amended (db : Option Store) (p : CreateOrderRequest)
    (s' : Store) (r : OrderResponse)
    (hok : create_order db p = .ok (s', r)) :
    ∃ s doc, db = some s ∧ s'.orders = s.orders ++ [doc] ∧
      doc.total = round2 (subtotalOf p.items + shippingOf (subtotalOf p.items) +
        taxesOf (subtotalOf p.items)) ∧
      |doc.total - (doc.subtotal + doc.shipping + doc.taxes)| ≤ 1 / 100 := by
  obtain ⟨s, hdb, _, _, ho, _⟩ := create_order_ok db p s' r hok
  obtain ⟨a, ha⟩ := shippingOf_cents (subtotalOf p.items)
  obtain ⟨b, hb⟩ := taxesOf_cents (subtotalOf p.items)
  refine ⟨s, orderDocOf p, hdb, ho, rfl, ?_⟩
  show |totalOf (subtotalOf p.items) -
      (round2 (subtotalOf p.items) + round2 (shippingOf (subtotalOf p.items)) +
        taxesOf (subtotalOf p.items))| ≤ 1 / 100
  simp only [totalOf]
  rw [ha, hb, round2_cast_div,
    show subtotalOf p.items + (a : ℚ) / 100 + (b : ℚ) / 100
        = subtotalOf p.items + ((a + b : ℤ) : ℚ) / 100 by push_cast; ring,
    show round2 (subtotalOf p.items) + (a : ℚ) / 100 + (b : ℚ) / 100
        = round2 (subtotalOf p.items) + ((a + b : ℤ) : ℚ) / 100 by push_cast; ring]
  exact round2_sub_bound (subtotalOf p.items) (a + b)

/-- Witness for C1 (amended): one item of price 10, quantity 1 — the spec's
own worked example, stored total 17.69 within a cent of
10.00 + 6.99 + 0.70. -/
theorem C1_total_invariant_amended_witness :
    ∃ s doc, (some (⟨[], []⟩ : Store)) = some s ∧
      (⟨[], [orderDocOf ⟨[⟨none, some "Tea", some 10, some 1, none⟩], "c", "m", "a"⟩]⟩ :
        Store).orders = s.orders ++ [doc] ∧
      doc.total = round2 (subtotalOf [⟨none, some "Tea", some 10, some 1, none⟩] +
        shippingOf (subtotalOf [⟨none, some "Tea", some 10, some 1, none⟩]) +
        taxesOf (subtotalOf [⟨none, some "Tea", some 10, some 1, none⟩])) ∧
      |doc.total - (doc.subtotal + doc.shipping + doc.taxes)| ≤ 1 / 100 :=
  C1_total_invariant_amended (some ⟨[], []⟩)
    ⟨[⟨none, some "Tea", some 10, some 1, none⟩], "c", "m", "a"⟩
    ⟨[], [orderDocOf ⟨[⟨none, some "Tea", some 10, some 1, none⟩], "c", "m", "a"⟩]⟩
    ⟨0, totalOf (subtotalOf [⟨none, some "Tea", some 10, some 1, none⟩])⟩
    (by
      have hone : validItem (coerceItem ⟨none, some "Tea", some 10, some 1, none⟩) = true := by
        norm_num [coerceItem, validItem]
      simp [create_order, hone])

/-- Payload of the C4 counterexample: one line item with price -1. -/
def c4Payload : CreateOrderRequest := ⟨[⟨none, none, some (-1), some 1, none⟩], "n", "e", "a"⟩

/-- C4 as stated is false: with a configured store, the request whose
single item carries price -1 neither succeeds nor raises StoreUnavailable —
the order schema's validation (price ≥ 0) rejects it, a third outcome. -/
theorem C4_counterexample :
    create_order (some ⟨[], []⟩) c4Payload = .error .validationFailed ∧
    (Except.error ApiError.validationFailed :
        Except ApiError (Store × OrderResponse)) ≠ .error .storeUnavailable := by
  constructor
  · have hone : validItem (coerceItem ⟨none, none, some (-1), some 1, none⟩) = false := by
      norm_num [coerceItem, validItem]
    simp [create_order, c4Payload, hone]
  · simp

/-- C4 (amended): order creation has exactly three outcomes — unconfigured
store raises StoreUnavailable, an out-of-bounds line item fails schema
validation, and otherwise the call fully succeeds, appending exactly the
one new order document and touching nothing else; errors leave no state
behind. -/
theorem C4_outcomes_amended (db : Option Store) (p : CreateOrderRequest) :
    (db = none ∧ create_order db p = .error .storeUnavailable) ∨
    (db ≠ none ∧ (p.items.map coerceItem).all validItem = false ∧
      create_order db p = .error .validationFailed) ∨
    (∃ s, db = some s ∧
      create_order db p = .ok ({ s with orders := s.orders ++ [orderDocOf p] },
        ⟨s.orders.length, totalOf (subtotalOf p.items)⟩)) := by
  match db with
  | none => exact .inl ⟨rfl, rfl⟩
  | some s =>
    by_cases hv : (p.items.map coerceItem).all validItem
    · exact .inr (.inr ⟨s, rfl, by rw [create_order, if_pos hv]⟩)
    · exact .inr (.inl ⟨by simp, by simpa using hv, by rw [create_order, if_neg hv]⟩)
